/-
Verification of the chat-stream orchestration engine
(backend chat service, tools service, artifact handler registry).

Shallow embedding notes:
* JavaScript objects that flow through `JSON.parse`/`JSON.stringify` are
  modelled by the inductive `Json` below; object fields are an ordered
  association list (JS preserves string-key insertion order).
* `JSON.parse` itself is a platform primitive, not repository code; a wire
  frame therefore enters the model as `Option Json`, the result of parsing
  its payload (`none` = the payload is not valid JSON and `JSON.parse`
  threw).
* Timestamps are natural numbers counted in seconds; `date-fns`'s
  `differenceInSeconds a b` becomes truncated subtraction `a - b`.
* Asynchronous store calls become explicit state passing over `Store`;
  thrown `HttpException(ChatSDKError ...)` values become `Except.error`.
-/
import Mathlib

namespace TasmilChat

/-! ## JSON values (wire frames after `JSON.parse`) -/

/-- A JSON value.  Object fields keep insertion order, as JavaScript does
for string keys; this order is what `Object.values` enumerates. -/
inductive Json where
  | str (s : String)
  | num (n : Int)
  | bool (b : Bool)
  | null
  | arr (elems : List Json)
  | obj (fields : List (String × Json))
deriving Repr

/-- First binding for a key, like JS property lookup on a parsed object
(`JSON.parse` keeps the last duplicate; parsed objects have unique keys, so
first-binding lookup agrees with JS on every parseable value). -/
def jsonLookup (fields : List (String × Json)) (key : String) : Option Json :=
  match fields with
  | [] => none
  | (k, v) :: rest => if k == key then some v else jsonLookup rest key

/-- JavaScript truthiness of a property-access result (`undefined`, `null`,
`false`, `0` and `""` are falsy; every object and array is truthy). -/
def truthy : Option Json → Bool
  | none => false
  | some .null => false
  | some (.bool b) => b
  | some (.str s) => !(s == "")
  | some (.num n) => !(n == 0)
  | some (.arr _) => true
  | some (.obj _) => true

/-- `typeof v === "object" && v !== null`: true for objects and arrays. -/
def isObjectNonNull : Json → Bool
  | .obj _ => true
  | .arr _ => true
  | _ => false

/-- `Object.values(v)`: field values of an object in key-insertion order,
or the elements of an array. -/
def objValues : Json → List Json
  | .obj fields => fields.map (·.2)
  | .arr elems => elems
  | _ => []

/-- JS property assignment `o[key] = v`: overwrite the existing binding in
place (keeping its position), or append when the key is absent. -/
def setField (fields : List (String × Json)) (key : String) (v : Json) :
    List (String × Json) :=
  match fields with
  | [] => [(key, v)]
  | (k, w) :: rest =>
      if k == key then (k, v) :: rest else (k, w) :: setField rest key v

/-! ## Transport Adapter: `extractAndTransformJson` and the pump loop
(`chat.service.ts`, `createChatStream`, lines 343-456) -/

/-- `jsonData.startsWith("data: ") ? jsonData.substring(6) : jsonData`:
strip the SSE `data: ` marker from a trimmed frame. -/
def stripDataHeader (s : String) : String :=
  if "data: ".isPrefixOf s then s.drop 6 else s

/-- The `finishReason`-lookup used inside the transform: `.unified` on the
parsed `finishReason` value (arrays and scalars have no such property). -/
def unifiedOf : Json → Option Json
  | .obj frFields => jsonLookup frFields "unified"
  | _ => none

/-- The in-place `finishReason` normalization of `extractAndTransformJson`
(`chat.service.ts` lines 434-449): on a frame with `type === "finish"` and a
truthy `finishReason` that is a non-null object, replace `finishReason` by
its `.unified` value when that is truthy, else by `Object.values(...)[0]`
when that first value is a string, else leave it unchanged. -/
def transformFinish (parsed : Json) : Json :=
  match parsed with
  | .obj fields =>
      match jsonLookup fields "type" with
      | some (.str ty) =>
          if ty == "finish" && truthy (jsonLookup fields "finishReason") then
            match jsonLookup fields "finishReason" with
            | some fr =>
                if isObjectNonNull fr then
                  let newFr :=
                    if truthy (unifiedOf fr) then
                      (unifiedOf fr).getD fr
                    else
                      match objValues fr with
                      | .str s :: _ => .str s
                      | _ => fr
                  .obj (setField fields "finishReason" newFr)
                else parsed
            | none => parsed
          else parsed
      | _ => parsed
  | _ => parsed

/-- `extractAndTransformJson` (`chat.service.ts` lines 426-456) after
`JSON.parse`: `payload` is the parse result of the prefix-stripped frame
text (`none` when `JSON.parse` threw, in which case the source logs a
warning and returns `null`); on success the source returns
`JSON.stringify` of the transformed value, embedded here as the value. -/
def extractAndTransformJson (payload : Option Json) : Option Json :=
  match payload with
  | none => none
  | some parsed => some (transformFinish parsed)

/-- The pump loop's per-frame emission (`chat.service.ts` lines 374-392):
each complete SSE message is run through `extractAndTransformJson`; a `null`
result is dropped and the loop continues with the next frame; a non-null
result is emitted via `subscriber.next`.  Input: the parse results of the
successive complete frames; output: the emitted sequence. -/
def pumpMessages (frames : List (Option Json)) : List Json :=
  match frames with
  | [] => []
  | f :: rest =>
      match extractAndTransformJson f with
      | some j => j :: pumpMessages rest
      | none => pumpMessages rest

/-- The reading the spec gives of the fallback: the first value *found in
the structure that is a scalar string*.  Stated from the spec's words, to
compare against the source's `values[0]` access. -/
def specFirstScalarString (fields : List (String × Json)) : Option String :=
  match fields with
  | [] => none
  | (_, .str s) :: _ => some s
  | _ :: rest => specFirstScalarString rest

/-! ## Data model and Store (`@repo/db` operations as used by the service) -/

/-- A `ChatMessage` as it travels through the service (id, role, parts;
the `metadata.createdAt` added by `convertToUIMessages` is not inspected by
any orchestration decision, so parts are kept as opaque content segments). -/
structure ChatMessage where
  id : String
  role : String
  parts : List String
deriving Repr, DecidableEq

/-- A persisted `DBMessage` row: `{id, chatId, role, parts, createdAt}`;
`createdAt` counts seconds. -/
structure DBMessage where
  id : String
  chatId : String
  role : String
  parts : List String
  createdAt : Nat
deriving Repr, DecidableEq

/-- A persisted `Chat` row: `{id, userId, title, visibility}`. -/
structure Chat where
  id : String
  userId : String
  title : String
  visibility : String
deriving Repr, DecidableEq

/-- The opaque Store.  `messages` is kept in persistence order (ascending
`createdAt`), which is the order `getMessagesByChatId` returns; `streams`
is the append-only `StreamRecord` table as `(streamId, chatId)` pairs. -/
structure Store where
  chats : List Chat
  messages : List DBMessage
  streams : List (String × String)
deriving Repr, DecidableEq

/-- `getChatById({id})`. -/
def getChatById (store : Store) (id : String) : Option Chat :=
  store.chats.find? (fun c => c.id == id)

/-- `getMessagesByChatId({id})`: the chat's messages in persistence order. -/
def getMessagesByChatId (store : Store) (id : String) : List DBMessage :=
  store.messages.filter (fun m => m.chatId == id)

/-- `getStreamIdsByChatId({chatId})`: the recorded stream ids, oldest
first. -/
def getStreamIdsByChatId (store : Store) (chatId : String) : List String :=
  (store.streams.filter (fun s => s.2 == chatId)).map (·.1)

/-- `saveChat`: insert a chat row. -/
def saveChat (store : Store) (c : Chat) : Store :=
  { store with chats := store.chats ++ [c] }

/-- `saveMessages`: append message rows in order. -/
def saveMessages (store : Store) (ms : List DBMessage) : Store :=
  { store with messages := store.messages ++ ms }

/-- `createStreamId({streamId, chatId})`: append a `StreamRecord` row. -/
def createStreamId (store : Store) (streamId chatId : String) : Store :=
  { store with streams := store.streams ++ [(streamId, chatId)] }

/-- The `ChatSDKError` codes thrown by the service. -/
inductive ChatSDKError where
  | rateLimitChat
  | forbiddenChat
  | notFoundChat
  | notFoundStream
deriving Repr, DecidableEq

/-- `convertToUIMessages`: project DB rows to UI messages. -/
def convertToUIMessages (messages : List DBMessage) : List ChatMessage :=
  messages.map (fun m => { id := m.id, role := m.role, parts := m.parts })

/-! ## Stream Assembler: `createChatStream` synchronous prelude
(`chat.service.ts` lines 101-181) -/

/-- The generation request body
`{id, message?, messages?, selectedChatModel, selectedVisibilityType}`. -/
structure CreateChatDto where
  id : String
  message : Option ChatMessage
  messages : Option (List ChatMessage)
  selectedChatModel : String
  selectedVisibilityType : String
deriving Repr, DecidableEq

/-- The authenticated identity (`JwtPayload`): its id and user type. -/
structure UserInfo where
  id : String
  type : String
deriving Repr, DecidableEq

/-- What the prelude of `createChatStream` hands to the streaming phase. -/
structure InitResult where
  store : Store
  uiMessages : List ChatMessage
  isToolApprovalFlow : Bool
  streamId : String
  titleGenStarted : Bool
deriving Repr, DecidableEq

/-- The synchronous prelude of `createChatStream` (`chat.service.ts` lines
117-181), every store write made explicit.  Oracles passed as arguments:
`messageCount` is the result of `getMessageCountByUserId({id, 24h})` and
`maxMessagesPerDay` the entitlement bound (both queries live outside
`src/`; the spec lists them as the quota inputs); `newStreamId` is the
`generateUUID()` value; `now` the clock.  A thrown `HttpException` becomes
`Except.error`, carrying no store: every store write below it is skipped. -/
def createChatStreamInit (dto : CreateChatDto) (user : UserInfo)
    (messageCount maxMessagesPerDay : Nat) (newStreamId : String) (now : Nat)
    (store : Store) : Except ChatSDKError InitResult :=
  if messageCount > maxMessagesPerDay then
    .error .rateLimitChat
  else
    let isToolApprovalFlow := dto.messages.isSome
    match getChatById store dto.id with
    | some chat =>
        if chat.userId != user.id then
          .error .forbiddenChat
        else
          let messagesFromDb :=
            if !isToolApprovalFlow then getMessagesByChatId store dto.id else []
          createChatRest dto user newStreamId now store isToolApprovalFlow
            messagesFromDb false
    | none =>
        if dto.message.map (·.role) == some "user" then
          let store := saveChat store
            { id := dto.id, userId := user.id, title := "New chat",
              visibility := dto.selectedVisibilityType }
          createChatRest dto user newStreamId now store isToolApprovalFlow [] true
        else
          createChatRest dto user newStreamId now store isToolApprovalFlow [] false
where
  /-- Lines 161-181: assemble `uiMessages`, persist the new user message when
  present, allocate and register the stream id.  (In the non-approval path the
  source appends `message as ChatMessage`; it is absent only when the request
  carries neither field, embedded as appending `dto.message.toList`.) -/
  createChatRest (dto : CreateChatDto) (_user : UserInfo) (newStreamId : String)
      (now : Nat) (store : Store) (isToolApprovalFlow : Bool)
      (messagesFromDb : List DBMessage) (titleGenStarted : Bool) :
      Except ChatSDKError InitResult :=
    let uiMessages :=
      match dto.messages with
      | some ms => ms
      | none => convertToUIMessages messagesFromDb ++ dto.message.toList
    let store :=
      match dto.message with
      | some m =>
          if m.role == "user" then
            saveMessages store
              [{ id := m.id, chatId := dto.id, role := "user",
                 parts := m.parts, createdAt := now }]
          else store
      | none => store
    let store := createStreamId store newStreamId dto.id
    .ok { store := store, uiMessages := uiMessages,
          isToolApprovalFlow := isToolApprovalFlow,
          streamId := newStreamId, titleGenStarted := titleGenStarted }

/-! ## `onFinish` persistence (`chat.service.ts` lines 271-332) -/

/-- A store write issued by `onFinish`. -/
inductive StoreWrite where
  | updateMsg (id : String) (parts : List String)
  | insertMsg (m : DBMessage)
deriving Repr, DecidableEq

/-- The write `onFinish` issues for one finished message in the approval
flow (lines 285-307): `updateMessage` when the id is already in
`uiMessages`, `saveMessages` otherwise. -/
def approvalWrite (uiMessages : List ChatMessage) (chatId : String)
    (now : Nat) (fm : ChatMessage) : StoreWrite :=
  if uiMessages.any (fun m => m.id == fm.id) then
    .updateMsg fm.id fm.parts
  else
    .insertMsg { id := fm.id, chatId := chatId, role := fm.role,
                 parts := fm.parts, createdAt := now }

/-- The ordered store writes of `onFinish` (lines 284-327): per-message
update-or-insert in the approval flow; one batch insert of all finished
messages otherwise (empty when nothing finished). -/
def onFinishWrites (isToolApprovalFlow : Bool) (uiMessages : List ChatMessage)
    (chatId : String) (now : Nat) (finished : List ChatMessage) :
    List StoreWrite :=
  if isToolApprovalFlow then
    finished.map (approvalWrite uiMessages chatId now)
  else
    finished.map (fun fm =>
      .insertMsg { id := fm.id, chatId := chatId, role := fm.role,
                   parts := fm.parts, createdAt := now })

/-! ## `getChatWithMessages` (`chat.service.ts` lines 462-486) -/

/-- `getChatWithMessages(chatId, userId)`: existence check, then visibility
check, then load the transcript. -/
def getChatWithMessages (store : Store) (chatId userId : String) :
    Except ChatSDKError (Chat × List ChatMessage) :=
  match getChatById store chatId with
  | none => .error .notFoundChat
  | some chat =>
      if chat.visibility == "private" && chat.userId != userId then
        .error .forbiddenChat
      else
        .ok (chat, convertToUIMessages (getMessagesByChatId store chatId))

/-! ## Resumption Coordinator: `getResumableStream`
(`chat.service.ts` lines 509-692) -/

/-- What a resume request observes. `live` is the still-attachable ongoing
feed; `emptyFeed` the immediately-completing empty stream built from
`createUIMessageStream({execute: () => \x7b\x7d})`; `catchUp m` the stream
whose `execute` writes exactly one `data-appendMessage` event carrying the
stringified most recent message, then completes. -/
inductive Feed where
  | live
  | emptyFeed
  | catchUp (m : DBMessage)
deriving Repr, DecidableEq

/-- The events a concluded (non-live) feed emits before completing:
nothing for the empty feed, a single catch-up event for `catchUp`.  (A
live feed's events come from the ongoing generation and are not
synthesized here.) -/
def concludedFeedEvents : Feed → Option (List DBMessage)
  | .live => none
  | .emptyFeed => some []
  | .catchUp m => some [m]

/-- `getResumableStream(chatId, userId)` (`chat.service.ts` lines
509-692).  Oracles: `streamContextPresent` is whether
`createResumableStreamContext` succeeded at startup (it returns `null`
immediately when not); `liveAttachable` is whether
`streamContext.resumableStream(recentStreamId, ...)` returned an ongoing
stream (`true`) or `null` because the underlying feed already concluded.
`resumeRequestedAt` is the `new Date()` taken before reading the stream
ids; `date-fns`'s `differenceInSeconds` is truncated subtraction at
second granularity.  The function performs no store writes. -/
def getResumableStream (streamContextPresent : Bool) (store : Store)
    (chatId userId : String) (liveAttachable : Bool)
    (resumeRequestedAt : Nat) : Except ChatSDKError (Option Feed) :=
  if !streamContextPresent then
    .ok none
  else
    match getChatById store chatId with
    | none => .error .notFoundChat
    | some chat =>
        if chat.visibility == "private" && chat.userId != userId then
          .error .forbiddenChat
        else
          let streamIds := getStreamIdsByChatId store chatId
          if streamIds.isEmpty then
            .error .notFoundStream
          else
            match streamIds.getLast? with
            | none => .error .notFoundStream
            | some _recentStreamId =>
                if liveAttachable then
                  .ok (some .live)
                else
                  let messages := getMessagesByChatId store chatId
                  match messages.getLast? with
                  | none => .ok (some .emptyFeed)
                  | some mostRecentMessage =>
                      if mostRecentMessage.role != "assistant" then
                        .ok (some .emptyFeed)
                      else if resumeRequestedAt - mostRecentMessage.createdAt > 15 then
                        .ok (some .emptyFeed)
                      else
                        .ok (some (.catchUp mostRecentMessage))

/-! ## Model-variant gating inside `createChatStream`
(`chat.service.ts` lines 200-246) -/

/-- `sub` is a leading segment of the character list `s`. -/
def charsHavePre : List Char → List Char → Bool
  | _, [] => true
  | [], _ :: _ => false
  | c :: cs, d :: ds => c == d && charsHavePre cs ds

/-- Substring containment on character lists. -/
def charsContain : List Char → List Char → Bool
  | [], sub => sub.isEmpty
  | c :: cs, sub => charsHavePre (c :: cs) sub || charsContain cs sub

/-- `selectedChatModel.includes(sub)`: substring containment. -/
def includesSubstr (s sub : String) : Bool :=
  charsContain s.data sub.data

/-- Line 200-202: a model id denotes a reasoning variant when it contains
`"reasoning"` or `"thinking"`. -/
def isReasoningModel (selectedChatModel : String) : Bool :=
  includesSubstr selectedChatModel "reasoning" ||
    includesSubstr selectedChatModel "thinking"

/-- The `smoothStream` chunking mode passed to the transform. -/
inductive SmoothChunking where
  | word
deriving Repr, DecidableEq

/-- The parts of the `streamText` call that depend on the model variant
(lines 210-246): `experimental_activeTools`, `experimental_transform`,
and the provider thinking option. -/
structure StreamTextConfig where
  activeTools : List String
  transform : Option SmoothChunking
  providerThinking : Bool
deriving Repr, DecidableEq

/-- The variant-dependent `streamText` configuration (lines 214-232). -/
def streamTextConfig (selectedChatModel : String) : StreamTextConfig :=
  let reasoning := isReasoningModel selectedChatModel
  { activeTools :=
      if reasoning then []
      else ["getWeather", "createDocument", "updateDocument",
            "requestSuggestions"],
    transform := if reasoning then none else some .word,
    providerThinking := reasoning }

/-! ## Tool Executor (`tools.service.ts`) and the artifact-handler
registry (`ai/artifacts/index.ts`, `ai/artifacts/server.ts`) -/

/-- The handler kinds returned by `createDocumentHandlers` (text, code and
sheet handlers only — `artifacts/index.ts` lines 10-14). -/
def createDocumentHandlersKinds : List String :=
  ["text", "code", "sheet"]

/-- The `kind` enum of `createDocument`'s declared input schema
(`tools.service.ts` line 84). -/
def createDocumentInputKinds : List String :=
  ["text", "code", "image", "sheet"]

/-- A persisted `Document` row as the tools read it. -/
structure Document where
  id : String
  title : String
  content : String
  kind : String
  createdAt : Nat
deriving Repr, DecidableEq

/-- A suggestion as assembled by `requestSuggestions` before persistence
(`userId`/`createdAt`/`documentCreatedAt` are added at save time). -/
structure SuggestionRec where
  originalText : String
  suggestedText : String
  describedAs : String
  id : String
  documentId : String
  isResolved : Bool
deriving Repr, DecidableEq

/-- A side-channel event written to the outbound stream by a tool
(`dataStream.write`). -/
inductive DataEvent where
  | dataKind (k : String)
  | dataId (s : String)
  | dataTitle (s : String)
  | dataClear
  | dataFinish
  | dataSuggestion (s : SuggestionRec)
  | handlerEvent (tag : String)
deriving Repr, DecidableEq

/-- A tool's return value: either a structured result/error payload
handed back to the model, or a thrown exception (`Except.error`). -/
inductive ToolResult where
  | docPayload (id title kind content : String)
  | errorPayload (msg : String)
  | suggestionsPayload (id title kind message : String)
deriving Repr, DecidableEq

/-- `createDocument`'s `execute` (`tools.service.ts` lines 86-138).
`newId` is `generateUUID()`; `handlerEvents` are the side-channel events
the kind's generator writes while streaming content (out-of-scope
generation, abstracted as an event list).  Emits kind/id/title/clear,
then either throws (`Except.error`) when no handler matches the kind, or
runs the handler, emits `data-finish`, and returns the result payload. -/
def createDocumentExec (kind title newId : String)
    (handlerEvents : List DataEvent) :
    List DataEvent × Except String ToolResult :=
  let preliminary : List DataEvent :=
    [.dataKind kind, .dataId newId, .dataTitle title, .dataClear]
  if createDocumentHandlersKinds.contains kind then
    (preliminary ++ handlerEvents ++ [.dataFinish],
     .ok (.docPayload newId title kind
       "A document was created and is now visible to the user."))
  else
    (preliminary, .error ("No document handler found for kind: " ++ kind))

/-- `updateDocument`'s `execute` (`tools.service.ts` lines 154-196).
`doc?` is the `getDocumentById` result.  A missing document or a missing
handler returns a structured `error` payload (no throw); otherwise clear,
handler events, `data-finish`, and the success payload. -/
def updateDocumentExec (doc? : Option Document)
    (handlerEvents : List DataEvent) :
    List DataEvent × Except String ToolResult :=
  match doc? with
  | none => ([], .ok (.errorPayload "Document not found"))
  | some document =>
      if createDocumentHandlersKinds.contains document.kind then
        ([.dataClear] ++ handlerEvents ++ [.dataFinish],
         .ok (.docPayload document.id document.title document.kind
           "The document has been updated successfully."))
      else
        ([.dataClear],
         .ok (.errorPayload
           ("No document handler found for kind: " ++ document.kind)))

/-! ## `requestSuggestions` (`tools.service.ts` lines 200-299) -/

/-- One element of the model's partial array output; fields may still be
absent while streaming. -/
structure SuggestionElt where
  originalSentence : Option String
  suggestedSentence : Option String
  describedAs : Option String
deriving Repr, DecidableEq

/-- JS truthiness of an optional string field (absent or `""` is falsy). -/
def truthyStr : Option String → Bool
  | none => false
  | some s => !(s == "")

/-- `!element?.originalSentence || !element?.suggestedSentence ||
!element?.description` negated: the element is complete. -/
def eltComplete (e : SuggestionElt) : Bool :=
  truthyStr e.originalSentence && truthyStr e.suggestedSentence &&
    truthyStr e.describedAs

/-- Build the suggestion record pushed for a complete element; `uuid` is
the `generateUUID()` value. -/
def mkSuggestion (documentId uuid : String) (e : SuggestionElt) :
    SuggestionRec :=
  { originalText := e.originalSentence.getD "",
    suggestedText := e.suggestedSentence.getD "",
    describedAs := e.describedAs.getD "",
    id := uuid, documentId := documentId, isResolved := false }

/-- The inner `for (let i = processedCount; i < partialOutput.length; i++)`
loop (lines 250-277), walking the remaining elements
`partialOutput.slice(i)`: a complete element is emitted as a
`data-suggestion` event and pushed (incrementing `processedCount`); an
incomplete one is skipped without incrementing it (the index `i` always
advances, so the walk is structural on the remaining slice).  `genId`
supplies `generateUUID()` values, indexed by how many suggestions have
been pushed so far.  Returns the updated
`(processedCount, suggestions, events)`. -/
def suggestionInnerLoop (documentId : String) (genId : Nat → String)
    (remaining : List SuggestionElt) (pc : Nat)
    (acc : List SuggestionRec) (evts : List DataEvent) :
    Nat × List SuggestionRec × List DataEvent :=
  match remaining with
  | [] => (pc, acc, evts)
  | e :: rest =>
      if eltComplete e then
        let s := mkSuggestion documentId (genId acc.length) e
        suggestionInnerLoop documentId genId rest (pc + 1)
          (acc ++ [s]) (evts ++ [.dataSuggestion s])
      else
        suggestionInnerLoop documentId genId rest pc acc evts

/-- The outer `for await (const partialOutput of partialOutputStream)` loop
(lines 245-278): `none` snapshots (`!partialOutput`) are skipped; each
array snapshot runs the inner loop on `partialOutput.slice(processedCount)`
(the inner index starts at the current `processedCount`). -/
def suggestionOuterLoop (documentId : String) (genId : Nat → String)
    (snaps : List (Option (List SuggestionElt))) (pc : Nat)
    (acc : List SuggestionRec) (evts : List DataEvent) :
    List SuggestionRec × List DataEvent :=
  match snaps with
  | [] => (acc, evts)
  | none :: rest => suggestionOuterLoop documentId genId rest pc acc evts
  | some snapshot :: rest =>
      let r := suggestionInnerLoop documentId genId (snapshot.drop pc) pc acc evts
      suggestionOuterLoop documentId genId rest r.1 r.2.1 r.2.2

/-- `requestSuggestions`'s `execute` (`tools.service.ts` lines 214-297).
Oracles: `doc?` is `getDocumentById`; `snaps` the successive values of
`partialOutputStream` (the nested model call is out of scope); `genId`
the `generateUUID()` supply; `sessionId` is `session.id`.  Returns the
side-channel events emitted, the suggestions persisted by
`saveSuggestions` (the whole collected batch when `session.id` is truthy,
nothing otherwise), and the tool's return payload. -/
def requestSuggestionsExec (doc? : Option Document)
    (snaps : List (Option (List SuggestionElt))) (genId : Nat → String)
    (sessionId : Option String) (documentId : String) :
    List DataEvent × List SuggestionRec × Except String ToolResult :=
  match doc? with
  | none => ([], [], .ok (.errorPayload "Document not found"))
  | some document =>
      if document.content == "" then
        ([], [], .ok (.errorPayload "Document not found"))
      else
        let r := suggestionOuterLoop documentId genId snaps 0 [] []
        let suggestions := r.1
        let persisted := if truthyStr sessionId then suggestions else []
        (r.2, persisted,
         .ok (.suggestionsPayload documentId document.title document.kind
           "Suggestions have been added to the document"))

/-! ## Theorems -/

/-- C8: a wire frame whose payload is not valid JSON (`JSON.parse` fails,
modelled as `none`) is dropped — `extractAndTransformJson` returns `null`
and nothing is emitted for it — and the pump keeps processing the
remaining frames of the stream exactly as it would have without the
corrupt frame, instead of terminating with an error. -/
theorem malformed_frame_dropped_processing_continues :
    extractAndTransformJson none = none ∧
    ∀ before after : List (Option Json),
      pumpMessages (before ++ none :: after) =
        pumpMessages before ++ pumpMessages after := by
  refine ⟨rfl, ?_⟩
  intro before after
  induction before with
  | nil => simp [pumpMessages, extractAndTransformJson]
  | cons f rest ih =>
      cases f with
      | none => simpa [pumpMessages, extractAndTransformJson] using ih
      | some j => simpa [pumpMessages, extractAndTransformJson] using ih

/-- C6: a model identifier denoting a reasoning variant (it contains
`"reasoning"` or `"thinking"`) gets an empty enabled-tool set and no
output-smoothing transform; every other identifier gets the full tool set
(getWeather, createDocument, updateDocument, requestSuggestions) and the
word-level smoothing transform. -/
theorem reasoning_variant_gating (m : String) :
    (isReasoningModel m = true →
        (streamTextConfig m).activeTools = [] ∧
        (streamTextConfig m).transform = none) ∧
    (isReasoningModel m = false →
        (streamTextConfig m).activeTools =
          ["getWeather", "createDocument", "updateDocument",
           "requestSuggestions"] ∧
        (streamTextConfig m).transform = some .word) := by
  constructor
  · intro h
    simp [streamTextConfig, h]
  · intro h
    simp [streamTextConfig, h]

/-- C6 witness: `"chat-model-reasoning"` disables tools and smoothing; a
plain `"chat-model"` enables the full tool set and the word transform. -/
theorem reasoning_variant_gating_witness :
    ((streamTextConfig "chat-model-reasoning").activeTools = [] ∧
      (streamTextConfig "chat-model-reasoning").transform = none) ∧
    ((streamTextConfig "chat-model").activeTools =
        ["getWeather", "createDocument", "updateDocument",
         "requestSuggestions"] ∧
      (streamTextConfig "chat-model").transform = some .word) :=
  ⟨(reasoning_variant_gating "chat-model-reasoning").1 (by decide),
   (reasoning_variant_gating "chat-model").2 (by decide)⟩

/-- C9: the `createDocument` input schema accepts kind `"image"`, the
handler registry holds only text/code/sheet, and a `createDocument` call
with kind `"image"` throws (`Except.error`) after emitting exactly its
four preliminary side-channel events — while `updateDocument` on a
document whose kind has no handler returns a structured error payload
instead of throwing. -/
theorem create_document_image_throws :
    ("image" ∈ createDocumentInputKinds ∧
      "image" ∉ createDocumentHandlersKinds) ∧
    (∀ title newId : String, ∀ hEvents : List DataEvent,
      createDocumentExec "image" title newId hEvents =
        ([.dataKind "image", .dataId newId, .dataTitle title, .dataClear],
         .error "No document handler found for kind: image")) ∧
    (∀ doc : Document, ∀ hEvents : List DataEvent,
      createDocumentHandlersKinds.contains doc.kind = false →
      updateDocumentExec (some doc) hEvents =
        ([.dataClear],
         .ok (.errorPayload
           ("No document handler found for kind: " ++ doc.kind)))) := by
  refine ⟨⟨by decide, by decide⟩, ?_, ?_⟩
  · intro title newId hEvents
    simp [createDocumentExec, createDocumentHandlersKinds]
  · intro doc hEvents h
    have h' : doc.kind ∉ createDocumentHandlersKinds := by simpa using h
    simp [updateDocumentExec, h']

/-- C9 witness: evaluated at kind `"image"` with no handler events and at
a concrete document of kind `"image"`. -/
theorem create_document_image_throws_witness :
    createDocumentExec "image" "My picture" "doc-1" [] =
      ([.dataKind "image", .dataId "doc-1", .dataTitle "My picture",
        .dataClear],
       .error "No document handler found for kind: image") ∧
    updateDocumentExec
        (some { id := "doc-1", title := "My picture", content := "c",
                kind := "image", createdAt := 0 }) [] =
      ([.dataClear],
       .ok (.errorPayload "No document handler found for kind: image")) :=
  ⟨create_document_image_throws.2.1 "My picture" "doc-1" [],
   create_document_image_throws.2.2
     { id := "doc-1", title := "My picture", content := "c",
       kind := "image", createdAt := 0 } [] (by decide)⟩

/-- Replacing a field by the value it already holds is the identity. -/
theorem setField_of_lookup_eq (fields : List (String × Json)) (key : String)
    (v : Json) (h : jsonLookup fields key = some v) :
    setField fields key v = fields := by
  induction fields with
  | nil => simp [jsonLookup] at h
  | cons p rest ih =>
      obtain ⟨k, w⟩ := p
      by_cases hk : (k == key) = true
      · simp [jsonLookup, hk] at h
        simp [setField, hk, h]
      · simp [jsonLookup, hk] at h
        simp [setField, hk, ih h]

/-- C3 counterexample: on a `finish` frame whose nested `finishReason`
lacks `unified` and whose *first* value is not a string — here
`{raw: 5, b: "stop"}` — the transform leaves the nested structure in
place, even though `"stop"` is the first scalar string value found in the
structure; the claim predicted the scalar `"stop"` would be emitted. -/
theorem finish_reason_first_value_cex :
    extractAndTransformJson (some (Json.obj
        [("type", Json.str "finish"),
         ("finishReason",
          Json.obj [("raw", Json.num 5), ("b", Json.str "stop")])])) =
      some (Json.obj
        [("type", Json.str "finish"),
         ("finishReason",
          Json.obj [("raw", Json.num 5), ("b", Json.str "stop")])]) ∧
    specFirstScalarString [("raw", Json.num 5), ("b", Json.str "stop")] =
      some "stop" ∧
    Json.obj [("raw", Json.num 5), ("b", Json.str "stop")] ≠
      Json.str "stop" :=
  ⟨rfl, rfl, by simp⟩

/-- C3 amended: on a frame of type `finish`, a nested
`finishReason = {unified: s}` with `s` nonempty collapses to the scalar
`s`; a plain scalar `finishReason` string always passes through unchanged;
and when the nested structure has no truthy `unified` key, the *first*
value is used only when it is itself a scalar string — otherwise the
frame is emitted with the nested structure unchanged. -/
theorem finish_reason_normalization (fields frFields : List (String × Json))
    (s : String) :
    (jsonLookup fields "type" = some (.str "finish") →
      jsonLookup fields "finishReason" = some (.obj frFields) →
      jsonLookup frFields "unified" = some (.str s) → s ≠ "" →
      transformFinish (.obj fields) =
        .obj (setField fields "finishReason" (.str s))) ∧
    (jsonLookup fields "finishReason" = some (.str s) →
      transformFinish (.obj fields) = .obj fields) ∧
    (jsonLookup fields "type" = some (.str "finish") →
      jsonLookup fields "finishReason" = some (.obj frFields) →
      truthy (jsonLookup frFields "unified") = false →
      ∀ v : String, ∀ rest : List Json,
        frFields.map (·.2) = .str v :: rest →
        transformFinish (.obj fields) =
          .obj (setField fields "finishReason" (.str v))) ∧
    (jsonLookup fields "type" = some (.str "finish") →
      jsonLookup fields "finishReason" = some (.obj frFields) →
      truthy (jsonLookup frFields "unified") = false →
      (∀ v : String, ∀ rest : List Json,
        frFields.map (·.2) ≠ .str v :: rest) →
      transformFinish (.obj fields) = .obj fields) := by
  refine ⟨?_, ?_, ?_, ?_⟩
  · intro hty hfr hu hs
    have hs' : (s == "") = false := by simpa using hs
    simp [transformFinish, hty, hfr, truthy, isObjectNonNull, unifiedOf, hu,
      hs']
  · intro hfr
    cases hty : jsonLookup fields "type" with
    | none => simp [transformFinish, hty]
    | some tyv =>
        cases tyv with
        | str ty => simp [transformFinish, hty, hfr, isObjectNonNull]
        | num n => simp [transformFinish, hty]
        | bool b => simp [transformFinish, hty]
        | null => simp [transformFinish, hty]
        | arr es => simp [transformFinish, hty]
        | obj fs => simp [transformFinish, hty]
  · intro hty hfr hu v rest hvals
    have htr : truthy (some (Json.obj frFields)) = true := rfl
    simp [transformFinish, hty, hfr, htr, isObjectNonNull, unifiedOf, hu,
      objValues, hvals]
  · intro hty hfr hu hne
    have htr : truthy (some (Json.obj frFields)) = true := rfl
    have hset := setField_of_lookup_eq fields "finishReason" _ hfr
    cases hvals : frFields.map (·.2) with
    | nil =>
        simp [transformFinish, hty, hfr, htr, isObjectNonNull,
          unifiedOf, hu, objValues, hvals, hset]
    | cons v rest =>
        cases v with
        | str w => exact absurd hvals (hne w rest)
        | num n =>
            simp [transformFinish, hty, hfr, htr, isObjectNonNull,
              unifiedOf, hu, objValues, hvals, hset]
        | bool b =>
            simp [transformFinish, hty, hfr, htr, isObjectNonNull,
              unifiedOf, hu, objValues, hvals, hset]
        | null =>
            simp [transformFinish, hty, hfr, htr, isObjectNonNull,
              unifiedOf, hu, objValues, hvals, hset]
        | arr es =>
            simp [transformFinish, hty, hfr, htr, isObjectNonNull,
              unifiedOf, hu, objValues, hvals, hset]
        | obj fs =>
            simp [transformFinish, hty, hfr, htr, isObjectNonNull,
              unifiedOf, hu, objValues, hvals, hset]

/-- C3 amended witness: `{unified: "stop"}` collapses to `"stop"`, and a
plain scalar `"stop"` passes through unchanged. -/
theorem finish_reason_normalization_witness :
    transformFinish (Json.obj
        [("type", Json.str "finish"),
         ("finishReason", Json.obj [("unified", Json.str "stop")])]) =
      Json.obj (setField
        [("type", Json.str "finish"),
         ("finishReason", Json.obj [("unified", Json.str "stop")])]
        "finishReason" (Json.str "stop")) ∧
    transformFinish (Json.obj
        [("type", Json.str "finish"), ("finishReason", Json.str "stop")]) =
      Json.obj
        [("type", Json.str "finish"), ("finishReason", Json.str "stop")] :=
  ⟨(finish_reason_normalization
      [("type", Json.str "finish"),
       ("finishReason", Json.obj [("unified", Json.str "stop")])]
      [("unified", Json.str "stop")] "stop").1 rfl rfl rfl (by decide),
   (finish_reason_normalization
      [("type", Json.str "finish"), ("finishReason", Json.str "stop")]
      [] "stop").2.1 rfl⟩

/-- C1 counterexample: a user with exactly `maxMessagesPerDay = 5`
messages in the window is *accepted* — the prelude returns `ok` (and
registers a stream id), not the `rate_limit` rejection the claim
requires. -/
theorem quota_exact_boundary_accepted_cex :
    createChatStreamInit
        { id := "c1", message := none, messages := some [],
          selectedChatModel := "chat-model",
          selectedVisibilityType := "private" }
        { id := "u1", type := "regular" } 5 5 "s1" 0
        { chats := [], messages := [], streams := [] } =
      .ok { store := { chats := [], messages := [],
                       streams := [("s1", "c1")] },
            uiMessages := [], isToolApprovalFlow := true,
            streamId := "s1", titleGenStarted := false } ∧
    createChatStreamInit
        { id := "c1", message := none, messages := some [],
          selectedChatModel := "chat-model",
          selectedVisibilityType := "private" }
        { id := "u1", type := "regular" } 5 5 "s1" 0
        { chats := [], messages := [], streams := [] } ≠
      .error .rateLimitChat := by
  refine ⟨rfl, ?_⟩
  intro h
  rw [show createChatStreamInit
        { id := "c1", message := none, messages := some [],
          selectedChatModel := "chat-model",
          selectedVisibilityType := "private" }
        { id := "u1", type := "regular" } 5 5 "s1" 0
        { chats := [], messages := [], streams := [] } =
      .ok { store := { chats := [], messages := [],
                       streams := [("s1", "c1")] },
            uiMessages := [], isToolApprovalFlow := true,
            streamId := "s1", titleGenStarted := false } from rfl] at h
  exact Except.noConfusion h

/-- C1 amended: the quota check rejects with `rate_limit` exactly when the
persisted message count of the preceding 24 hours is *strictly greater*
than `maxMessagesPerDay` (the rejection precedes every store write: an
error return carries none); at exactly `maxMessagesPerDay` or fewer the
attempt is never rate-limited. -/
theorem quota_rejects_only_strictly_above (dto : CreateChatDto)
    (user : UserInfo) (mc maxPerDay : Nat) (sid : String) (now : Nat)
    (store : Store) :
    (mc > maxPerDay →
      createChatStreamInit dto user mc maxPerDay sid now store =
        .error .rateLimitChat) ∧
    (mc ≤ maxPerDay →
      createChatStreamInit dto user mc maxPerDay sid now store ≠
        .error .rateLimitChat) := by
  constructor
  · intro h
    simp [createChatStreamInit, h]
  · intro h
    have h' : ¬ mc > maxPerDay := not_lt.mpr h
    unfold createChatStreamInit
    simp only [h', if_false]
    cases hchat : getChatById store dto.id with
    | some chat =>
        by_cases ho : (chat.userId != user.id) = true
        · simp [ho]
        · simp [ho, createChatStreamInit.createChatRest]
    | none =>
        by_cases hm : (dto.message.map (·.role) == some "user") = true
        · simp [hm, createChatStreamInit.createChatRest]
        · simp [hm, createChatStreamInit.createChatRest]

/-- C1 amended witness: six messages against a bound of five is rejected
with `rate_limit`. -/
theorem quota_rejects_only_strictly_above_witness :
    createChatStreamInit
        { id := "c1", message := none, messages := some [],
          selectedChatModel := "chat-model",
          selectedVisibilityType := "private" }
        { id := "u1", type := "regular" } 6 5 "s1" 0
        { chats := [], messages := [], streams := [] } =
      .error .rateLimitChat :=
  (quota_rejects_only_strictly_above
      { id := "c1", message := none, messages := some [],
        selectedChatModel := "chat-model",
        selectedVisibilityType := "private" }
      { id := "u1", type := "regular" } 6 5 "s1" 0
      { chats := [], messages := [], streams := [] }).1 (by decide)

/-- C10: in the approval-resume branch (a `messages` list, no single new
message) on a chat id absent from the Store and within quota, the prelude
succeeds: no `Chat` record is created, no message is persisted, no
`not_found`/`forbidden` error is raised, and a fresh stream identifier is
registered against the nonexistent chat id. -/
theorem approval_flow_nonexistent_chat_registers_stream
    (dto : CreateChatDto) (user : UserInfo) (mc maxPerDay : Nat)
    (sid : String) (now : Nat) (store : Store) (msgs : List ChatMessage)
    (hmsgs : dto.messages = some msgs) (hmsg : dto.message = none)
    (hquota : mc ≤ maxPerDay) (hchat : getChatById store dto.id = none) :
    createChatStreamInit dto user mc maxPerDay sid now store =
      .ok { store := { chats := store.chats, messages := store.messages,
                       streams := store.streams ++ [(sid, dto.id)] },
            uiMessages := msgs, isToolApprovalFlow := true,
            streamId := sid, titleGenStarted := false } := by
  have h' : ¬ mc > maxPerDay := not_lt.mpr hquota
  unfold createChatStreamInit
  simp [h', hchat, hmsg, hmsgs, createChatStreamInit.createChatRest,
    createStreamId]

/-- C10 witness: a concrete approval-resume request on the missing chat
`"ghost"`. -/
theorem approval_flow_nonexistent_chat_registers_stream_witness :
    createChatStreamInit
        { id := "ghost", message := none,
          messages := some [{ id := "m1", role := "assistant",
                              parts := ["ok"] }],
          selectedChatModel := "chat-model",
          selectedVisibilityType := "private" }
        { id := "u1", type := "regular" } 0 5 "s9" 7
        { chats := [], messages := [], streams := [] } =
      .ok { store := { chats := [], messages := [],
                       streams := [("s9", "ghost")] },
            uiMessages := [{ id := "m1", role := "assistant",
                             parts := ["ok"] }],
            isToolApprovalFlow := true, streamId := "s9",
            titleGenStarted := false } :=
  approval_flow_nonexistent_chat_registers_stream
    { id := "ghost", message := none,
      messages := some [{ id := "m1", role := "assistant",
                          parts := ["ok"] }],
      selectedChatModel := "chat-model",
      selectedVisibilityType := "private" }
    { id := "u1", type := "regular" } 0 5 "s9" 7
    { chats := [], messages := [], streams := [] }
    [{ id := "m1", role := "assistant", parts := ["ok"] }]
    rfl rfl (by decide) rfl

/-- C2: resuming a chat whose live feed has concluded
(`liveAttachable = false`) and whose last persisted message is an
assistant message yields, when that message is more than 15 seconds old,
the empty immediately-completing feed — at the original request time and
at every repetition (any later request time, the function performing no
store writes) — and otherwise exactly one catch-up event carrying that
last assistant message, followed by completion. -/
theorem resume_concluded_stale_or_catchup (store : Store)
    (chatId userId : String) (chat : Chat) (m : DBMessage) (t : Nat)
    (hchat : getChatById store chatId = some chat)
    (hauth : (chat.visibility == "private" && chat.userId != userId) = false)
    (hstreams : (getStreamIdsByChatId store chatId).isEmpty = false)
    (hlast : (getMessagesByChatId store chatId).getLast? = some m)
    (hrole : m.role = "assistant") :
    (t - m.createdAt > 15 →
      ∀ t' : Nat, t ≤ t' →
        getResumableStream true store chatId userId false t' =
          .ok (some .emptyFeed) ∧
        concludedFeedEvents .emptyFeed = some []) ∧
    (t - m.createdAt ≤ 15 →
      getResumableStream true store chatId userId false t =
        .ok (some (.catchUp m)) ∧
      concludedFeedEvents (.catchUp m) = some [m]) := by
  obtain ⟨sid, hsid⟩ :
      ∃ sid, (getStreamIdsByChatId store chatId).getLast? = some sid := by
    have hne : getStreamIdsByChatId store chatId ≠ [] := by
      simpa [List.isEmpty_iff] using hstreams
    exact Option.isSome_iff_exists.mp (by simpa [List.getLast?_isSome] using hne)
  have hrole' : (m.role != "assistant") = false := by simp [hrole]
  constructor
  · intro hstale t' ht'
    have hstale' : t' - m.createdAt > 15 :=
      lt_of_lt_of_le hstale (Nat.sub_le_sub_right ht' _)
    refine ⟨?_, rfl⟩
    simp [getResumableStream, hchat, hauth, hstreams, hsid, hlast, hrole',
      hstale']
  · intro hfresh
    have hfresh' : ¬ (t - m.createdAt > 15) := not_lt.mpr hfresh
    refine ⟨?_, rfl⟩
    simp [getResumableStream, hchat, hauth, hstreams, hsid, hlast, hrole',
      hfresh']

/-- C2 witness: one assistant message persisted at second 0; a resume 20
seconds later (and its repetition at second 30) gets the empty feed, and
a fresh resume 10 seconds after persistence gets the single catch-up
event carrying that message. -/
theorem resume_concluded_stale_or_catchup_witness :
    (getResumableStream true
        { chats := [{ id := "c1", userId := "u1", title := "T",
                      visibility := "public" }],
          messages := [{ id := "m1", chatId := "c1", role := "assistant",
                         parts := ["hi"], createdAt := 0 }],
          streams := [("s1", "c1")] } "c1" "u2" false 30 =
      .ok (some .emptyFeed)) ∧
    (getResumableStream true
        { chats := [{ id := "c1", userId := "u1", title := "T",
                      visibility := "public" }],
          messages := [{ id := "m1", chatId := "c1", role := "assistant",
                         parts := ["hi"], createdAt := 0 }],
          streams := [("s1", "c1")] } "c1" "u2" false 10 =
      .ok (some (.catchUp { id := "m1", chatId := "c1", role := "assistant",
                            parts := ["hi"], createdAt := 0 }))) :=
  ⟨((resume_concluded_stale_or_catchup
      { chats := [{ id := "c1", userId := "u1", title := "T",
                    visibility := "public" }],
        messages := [{ id := "m1", chatId := "c1", role := "assistant",
                       parts := ["hi"], createdAt := 0 }],
        streams := [("s1", "c1")] } "c1" "u2"
      { id := "c1", userId := "u1", title := "T", visibility := "public" }
      { id := "m1", chatId := "c1", role := "assistant", parts := ["hi"],
        createdAt := 0 } 20 rfl rfl rfl rfl rfl).1 (by decide) 30
      (by decide)).1,
   ((resume_concluded_stale_or_catchup
      { chats := [{ id := "c1", userId := "u1", title := "T",
                    visibility := "public" }],
        messages := [{ id := "m1", chatId := "c1", role := "assistant",
                       parts := ["hi"], createdAt := 0 }],
        streams := [("s1", "c1")] } "c1" "u2"
      { id := "c1", userId := "u1", title := "T", visibility := "public" }
      { id := "m1", chatId := "c1", role := "assistant", parts := ["hi"],
        createdAt := 0 } 10 rfl rfl rfl rfl rfl).2 (by decide)).1⟩

/-- C7 counterexample: when the resumable-stream context is absent (no
durable channel at startup), a resume request on a *nonexistent* chat id
returns `null` (`.ok none`) — it does not fail with `not_found`, so the
claim's "a nonexistent chat id always fails with not_found" is false for
resume requests. -/
theorem resume_no_context_no_not_found_cex :
    getResumableStream false { chats := [], messages := [], streams := [] }
        "missing" "u1" false 0 = .ok none ∧
    getChatById { chats := [], messages := [], streams := [] } "missing" =
      none ∧
    getResumableStream false { chats := [], messages := [], streams := [] }
        "missing" "u1" false 0 ≠ .error .notFoundChat := by
  refine ⟨rfl, rfl, ?_⟩
  intro h
  rw [show getResumableStream false
        { chats := [], messages := [], streams := [] } "missing" "u1" false 0
      = .ok none from rfl] at h
  exact Except.noConfusion h

/-- C7 amended: for every chat-read request, and for every resume request
made while the resumable-stream context is configured, a nonexistent chat
id fails with `not_found` — evaluated before the visibility check, so it
wins regardless of the requesting identity — and a private chat accessed
by a non-owner fails with `forbidden`; when the context is not configured,
every resume request returns `null` without raising either error. -/
theorem existence_before_visibility (store : Store) (chatId userId : String) :
    (getChatById store chatId = none →
      getChatWithMessages store chatId userId = .error .notFoundChat ∧
      ∀ live : Bool, ∀ t : Nat,
        getResumableStream true store chatId userId live t =
          .error .notFoundChat) ∧
    (∀ chat : Chat, getChatById store chatId = some chat →
      chat.visibility = "private" → chat.userId ≠ userId →
      getChatWithMessages store chatId userId = .error .forbiddenChat ∧
      ∀ live : Bool, ∀ t : Nat,
        getResumableStream true store chatId userId live t =
          .error .forbiddenChat) ∧
    (∀ live : Bool, ∀ t : Nat,
      getResumableStream false store chatId userId live t = .ok none) := by
  refine ⟨?_, ?_, fun live t => rfl⟩
  · intro h
    exact ⟨by simp [getChatWithMessages, h],
      fun live t => by simp [getResumableStream, h]⟩
  · intro chat hchat hpriv howner
    have hcond :
        (chat.visibility == "private" && chat.userId != userId) = true := by
      simp [hpriv, howner]
    exact ⟨by simp [getChatWithMessages, hchat, hcond],
      fun live t => by simp [getResumableStream, hchat, hcond]⟩

/-- C7 amended witness: the empty store (nonexistent chat, configured
context) gives `not_found` on both the chat read and the resume; a
private chat owned by `"u1"` read by `"u2"` gives `forbidden`. -/
theorem existence_before_visibility_witness :
    (getChatWithMessages { chats := [], messages := [], streams := [] }
        "missing" "u1" = .error .notFoundChat ∧
      getResumableStream true { chats := [], messages := [], streams := [] }
        "missing" "u1" false 0 = .error .notFoundChat) ∧
    (getChatWithMessages
        { chats := [{ id := "c1", userId := "u1", title := "T",
                      visibility := "private" }],
          messages := [], streams := [] } "c1" "u2" =
        .error .forbiddenChat ∧
      getResumableStream true
        { chats := [{ id := "c1", userId := "u1", title := "T",
                      visibility := "private" }],
          messages := [], streams := [] } "c1" "u2" false 0 =
        .error .forbiddenChat) :=
  ⟨⟨((existence_before_visibility
        { chats := [], messages := [], streams := [] } "missing" "u1").1
        rfl).1,
    ((existence_before_visibility
        { chats := [], messages := [], streams := [] } "missing" "u1").1
        rfl).2 false 0⟩,
   ⟨((existence_before_visibility
        { chats := [{ id := "c1", userId := "u1", title := "T",
                      visibility := "private" }],
          messages := [], streams := [] } "c1" "u2").2.1
        { id := "c1", userId := "u1", title := "T",
          visibility := "private" } rfl rfl (by decide)).1,
    ((existence_before_visibility
        { chats := [{ id := "c1", userId := "u1", title := "T",
                      visibility := "private" }],
          messages := [], streams := [] } "c1" "u2").2.1
        { id := "c1", userId := "u1", title := "T",
          visibility := "private" } rfl rfl (by decide)).2 false 0⟩⟩

/-- `Array.prototype.find` on ids, as a Bool: some input message carries
the id. -/
theorem anyId_iff (msgs : List ChatMessage) (i : String) :
    msgs.any (fun m => m.id == i) = true ↔ ∃ m ∈ msgs, m.id = i := by
  simp [List.any_eq_true]

/-- A finished message whose id is in the input transcript contributes an
update write. -/
theorem onFinish_update_mem (msgs : List ChatMessage) (cid : String)
    (tN : Nat) (finished : List ChatMessage) (fm : ChatMessage)
    (hfm : fm ∈ finished)
    (hin : msgs.any (fun m => m.id == fm.id) = true) :
    StoreWrite.updateMsg fm.id fm.parts ∈
      onFinishWrites true msgs cid tN finished := by
  have hw : approvalWrite msgs cid tN fm = .updateMsg fm.id fm.parts := by
    simp [approvalWrite, hin]
  have := List.mem_map_of_mem (approvalWrite msgs cid tN) hfm
  rw [hw] at this
  simpa [onFinishWrites] using this

/-- A finished message whose id is not in the input transcript contributes
an insert write. -/
theorem onFinish_insert_mem (msgs : List ChatMessage) (cid : String)
    (tN : Nat) (finished : List ChatMessage) (fm : ChatMessage)
    (hfm : fm ∈ finished)
    (hout : msgs.any (fun m => m.id == fm.id) = false) :
    StoreWrite.insertMsg
        { id := fm.id, chatId := cid, role := fm.role, parts := fm.parts,
          createdAt := tN } ∈
      onFinishWrites true msgs cid tN finished := by
  have hw : approvalWrite msgs cid tN fm =
      .insertMsg { id := fm.id, chatId := cid, role := fm.role,
                   parts := fm.parts, createdAt := tN } := by
    simp [approvalWrite, hout]
  have := List.mem_map_of_mem (approvalWrite msgs cid tN) hfm
  rw [hw] at this
  simpa [onFinishWrites] using this

/-- Every insert write of the approval flow carries an id absent from the
input transcript. -/
theorem onFinish_insert_id_not_in_ui (msgs : List ChatMessage)
    (cid : String) (tN : Nat) (finished : List ChatMessage)
    (dbm : DBMessage)
    (hmem : StoreWrite.insertMsg dbm ∈
      onFinishWrites true msgs cid tN finished) :
    msgs.any (fun m => m.id == dbm.id) = false := by
  simp only [onFinishWrites, if_true, List.mem_map] at hmem
  obtain ⟨fm, _hfm, hw⟩ := hmem
  by_cases h : msgs.any (fun m => m.id == fm.id) = true
  · simp [approvalWrite, h] at hw
  · have hfalse : msgs.any (fun m => m.id == fm.id) = false := by
      simpa using h
    simp only [approvalWrite, hfalse, Bool.false_eq_true, if_false] at hw
    have hid : dbm.id = fm.id := by
      cases hw
      rfl
    rw [hid]
    exact hfalse

/-- C4: in the approval-resume branch (full `messages` list, no single new
message) the prelude persists no new user message (`messages` table
unchanged) and the finished-message writes of `onFinish` update in place
every message whose id already appears in the input transcript — never
re-inserting such an id — while messages with new ids are inserted as
new rows. -/
theorem approval_resume_updates_in_place (dto : CreateChatDto)
    (user : UserInfo) (mc maxPerDay : Nat) (sid : String) (now : Nat)
    (store : Store) (msgs : List ChatMessage) (r : InitResult)
    (finished : List ChatMessage) (finishTime : Nat)
    (hmsgs : dto.messages = some msgs) (hmsg : dto.message = none)
    (hok : createChatStreamInit dto user mc maxPerDay sid now store =
      .ok r) :
    r.isToolApprovalFlow = true ∧
    r.store.messages = store.messages ∧
    r.uiMessages = msgs ∧
    (∀ fm ∈ finished,
      ((∃ m ∈ msgs, m.id = fm.id) →
        StoreWrite.updateMsg fm.id fm.parts ∈
          onFinishWrites r.isToolApprovalFlow r.uiMessages dto.id
            finishTime finished ∧
        ∀ dbm : DBMessage,
          StoreWrite.insertMsg dbm ∈
            onFinishWrites r.isToolApprovalFlow r.uiMessages dto.id
              finishTime finished →
          dbm.id ≠ fm.id) ∧
      ((∀ m ∈ msgs, m.id ≠ fm.id) →
        StoreWrite.insertMsg
            { id := fm.id, chatId := dto.id, role := fm.role,
              parts := fm.parts, createdAt := finishTime } ∈
          onFinishWrites r.isToolApprovalFlow r.uiMessages dto.id
            finishTime finished)) := by
  have hinit : r.isToolApprovalFlow = true ∧
      r.store.messages = store.messages ∧ r.uiMessages = msgs := by
    by_cases hq : mc > maxPerDay
    · simp [createChatStreamInit, hq] at hok
    · cases hchat : getChatById store dto.id with
      | some chat =>
          by_cases ho : (chat.userId != user.id) = true
          · simp [createChatStreamInit, hq, hchat, ho] at hok
          · simp [createChatStreamInit, createChatStreamInit.createChatRest,
              hq, hchat, ho, hmsg, hmsgs, saveMessages, createStreamId]
              at hok
            rw [← hok]
            exact ⟨rfl, rfl, rfl⟩
      | none =>
          simp [createChatStreamInit, createChatStreamInit.createChatRest,
            hq, hchat, hmsg, hmsgs, saveMessages, createStreamId] at hok
          rw [← hok]
          exact ⟨rfl, rfl, rfl⟩
  obtain ⟨hflow, hstore, hui⟩ := hinit
  refine ⟨hflow, hstore, hui, ?_⟩
  intro fm hfm
  rw [hflow, hui]
  constructor
  · intro hin
    have hin' : msgs.any (fun m => m.id == fm.id) = true :=
      (anyId_iff msgs fm.id).mpr hin
    refine ⟨onFinish_update_mem msgs dto.id finishTime finished fm hfm hin',
      ?_⟩
    intro dbm hdbm hid
    have hout :=
      onFinish_insert_id_not_in_ui msgs dto.id finishTime finished dbm hdbm
    rw [hid] at hout
    rw [hin'] at hout
    exact Bool.noConfusion hout
  · intro hnot
    have hout : msgs.any (fun m => m.id == fm.id) = false := by
      rw [← Bool.not_eq_true]
      intro hc
      obtain ⟨m, hm, hmid⟩ := (anyId_iff msgs fm.id).mp hc
      exact hnot m hm hmid
    exact onFinish_insert_mem msgs dto.id finishTime finished fm hfm hout

/-- C4 witness: an approval-resume request whose transcript holds ids
`m1`, `m2`; the finished messages re-carry `m2` (updated in place) and add
the new `m3` (inserted). -/
theorem approval_resume_updates_in_place_witness :
    StoreWrite.updateMsg "m2" ["tool-result"] ∈
      onFinishWrites true
        [{ id := "m1", role := "user", parts := ["q"] },
         { id := "m2", role := "assistant", parts := ["tool-call"] }]
        "c1" 50
        [{ id := "m2", role := "assistant", parts := ["tool-result"] },
         { id := "m3", role := "assistant", parts := ["answer"] }] ∧
    StoreWrite.insertMsg
        { id := "m3", chatId := "c1", role := "assistant",
          parts := ["answer"], createdAt := 50 } ∈
      onFinishWrites true
        [{ id := "m1", role := "user", parts := ["q"] },
         { id := "m2", role := "assistant", parts := ["tool-call"] }]
        "c1" 50
        [{ id := "m2", role := "assistant", parts := ["tool-result"] },
         { id := "m3", role := "assistant", parts := ["answer"] }] := by
  have h := approval_resume_updates_in_place
    { id := "c1", message := none,
      messages := some
        [{ id := "m1", role := "user", parts := ["q"] },
         { id := "m2", role := "assistant", parts := ["tool-call"] }],
      selectedChatModel := "chat-model",
      selectedVisibilityType := "private" }
    { id := "u1", type := "regular" } 0 5 "s1" 0
    { chats := [], messages := [], streams := [] }
    [{ id := "m1", role := "user", parts := ["q"] },
     { id := "m2", role := "assistant", parts := ["tool-call"] }]
    { store := { chats := [], messages := [],
                 streams := [("s1", "c1")] },
      uiMessages :=
        [{ id := "m1", role := "user", parts := ["q"] },
         { id := "m2", role := "assistant", parts := ["tool-call"] }],
      isToolApprovalFlow := true, streamId := "s1",
      titleGenStarted := false }
    [{ id := "m2", role := "assistant", parts := ["tool-result"] },
     { id := "m3", role := "assistant", parts := ["answer"] }] 50
    rfl rfl rfl
  obtain ⟨_, _, _, hall⟩ := h
  have h2 := hall
    { id := "m2", role := "assistant", parts := ["tool-result"] } (by simp)
  have h3 := hall
    { id := "m3", role := "assistant", parts := ["answer"] } (by simp)
  refine ⟨?_, ?_⟩
  · have hmem : ∃ m ∈
        [({ id := "m1", role := "user", parts := ["q"] } : ChatMessage),
         { id := "m2", role := "assistant", parts := ["tool-call"] }],
        m.id = "m2" := by
      refine ⟨{ id := "m2", role := "assistant", parts := ["tool-call"] },
        by simp, rfl⟩
    exact (h2.1 hmem).1
  · refine h3.2 ?_
    intro m hm
    simp only [List.mem_cons, List.mem_singleton, List.not_mem_nil] at hm
    rcases hm with h1 | h1 | h1
    · rw [h1]; decide
    · rw [h1]; decide
    · exact absurd h1 (by simp)

/-- The inner suggestion loop appends some batch `delta`: each pushed
suggestion is mirrored by exactly one `data-suggestion` event, in push
order. -/
theorem suggestionInnerLoop_spec (documentId : String) (genId : Nat → String)
    (remaining : List SuggestionElt) :
    ∀ pc : Nat, ∀ acc : List SuggestionRec, ∀ evts : List DataEvent,
      ∃ delta : List SuggestionRec,
        suggestionInnerLoop documentId genId remaining pc acc evts =
          (pc + delta.length, acc ++ delta,
            evts ++ delta.map DataEvent.dataSuggestion) := by
  induction remaining with
  | nil =>
      intro pc acc evts
      exact ⟨[], by simp [suggestionInnerLoop]⟩
  | cons e rest ih =>
      intro pc acc evts
      by_cases hc : eltComplete e = true
      · obtain ⟨d, hd⟩ := ih (pc + 1)
          (acc ++ [mkSuggestion documentId (genId acc.length) e])
          (evts ++ [.dataSuggestion (mkSuggestion documentId
            (genId acc.length) e)])
        refine ⟨mkSuggestion documentId (genId acc.length) e :: d, ?_⟩
        rw [suggestionInnerLoop]
        simp only [hc, if_true]
        rw [hd]
        refine congrArg₂ Prod.mk (by simp [List.length_cons]; omega)
          (congrArg₂ Prod.mk ?_ ?_) <;> simp
      · have hc' : eltComplete e = false := by simpa using hc
        obtain ⟨d, hd⟩ := ih pc acc evts
        refine ⟨d, ?_⟩
        rw [suggestionInnerLoop]
        simp only [hc', Bool.false_eq_true, if_false]
        exact hd

/-- The outer suggestion loop appends some batch `delta` with matching
events, regardless of how the model's partial snapshots arrive. -/
theorem suggestionOuterLoop_spec (documentId : String) (genId : Nat → String)
    (snaps : List (Option (List SuggestionElt))) :
    ∀ pc : Nat, ∀ acc : List SuggestionRec, ∀ evts : List DataEvent,
      ∃ delta : List SuggestionRec,
        suggestionOuterLoop documentId genId snaps pc acc evts =
          (acc ++ delta, evts ++ delta.map DataEvent.dataSuggestion) := by
  induction snaps with
  | nil =>
      intro pc acc evts
      exact ⟨[], by simp [suggestionOuterLoop]⟩
  | cons s rest ih =>
      intro pc acc evts
      cases s with
      | none =>
          obtain ⟨d, hd⟩ := ih pc acc evts
          exact ⟨d, by simpa [suggestionOuterLoop] using hd⟩
      | some snapshot =>
          obtain ⟨d1, hd1⟩ := suggestionInnerLoop_spec documentId genId
            (snapshot.drop pc) pc acc evts
          obtain ⟨d2, hd2⟩ := ih (pc + d1.length) (acc ++ d1)
            (evts ++ d1.map DataEvent.dataSuggestion)
          refine ⟨d1 ++ d2, ?_⟩
          rw [suggestionOuterLoop]
          rw [hd1]
          simpa [List.append_assoc] using hd2

/-- C5 counterexample: a single model snapshot carrying six complete
elements makes `requestSuggestions` emit six `data-suggestion` events and
persist a batch of six suggestions — the claimed bound of 5 (present only
in the model prompt) is not enforced. -/
theorem suggestions_unbounded_cex :
    ((requestSuggestionsExec
        (some { id := "d1", title := "T", content := "text", kind := "text",
                createdAt := 0 })
        [some (List.replicate 6
          { originalSentence := some "o", suggestedSentence := some "s",
            describedAs := some "d" })]
        (fun _ => "uuid") (some "u1") "d1").2.1).length = 6 ∧
    ((requestSuggestionsExec
        (some { id := "d1", title := "T", content := "text", kind := "text",
                createdAt := 0 })
        [some (List.replicate 6
          { originalSentence := some "o", suggestedSentence := some "s",
            describedAs := some "d" })]
        (fun _ => "uuid") (some "u1") "d1").1).length = 6 := by
  exact ⟨rfl, rfl⟩

/-- C5 amended: `requestSuggestions` emits one `data-suggestion`
side-channel event per well-formed suggestion, as it completes and in
order, and persists exactly the full collected batch once at the end
(when the session carries a user id); the size of that batch is whatever
the model stream yields — the at-most-5 bound is requested only via the
model prompt, not enforced by the tool. -/
theorem suggestions_emitted_and_persisted (doc : Document)
    (snaps : List (Option (List SuggestionElt))) (genId : Nat → String)
    (uid docId : String)
    (hcontent : (doc.content == "") = false) (huid : (uid == "") = false) :
    (requestSuggestionsExec (some doc) snaps genId (some uid) docId).2.1 =
      (suggestionOuterLoop docId genId snaps 0 [] []).1 ∧
    (requestSuggestionsExec (some doc) snaps genId (some uid) docId).1 =
      ((requestSuggestionsExec (some doc) snaps genId (some uid)
        docId).2.1).map DataEvent.dataSuggestion ∧
    (requestSuggestionsExec (some doc) snaps genId (some uid) docId).2.2 =
      .ok (.suggestionsPayload docId doc.title doc.kind
        "Suggestions have been added to the document") := by
  have htr : truthyStr (some uid) = true := by
    simp [truthyStr] at huid ⊢
    exact huid
  obtain ⟨delta, hdelta⟩ :=
    suggestionOuterLoop_spec docId genId snaps 0 [] []
  refine ⟨?_, ?_, ?_⟩ <;>
    simp [requestSuggestionsExec, hcontent, htr, hdelta]

/-- C5 amended witness: two complete elements over two snapshots give two
events, the same two persisted suggestions. -/
theorem suggestions_emitted_and_persisted_witness :
    (requestSuggestionsExec
        (some { id := "d1", title := "T", content := "text", kind := "text",
                createdAt := 0 })
        [some [{ originalSentence := some "a", suggestedSentence := some "b",
                 describedAs := some "c" }],
         some [{ originalSentence := some "a", suggestedSentence := some "b",
                 describedAs := some "c" },
               { originalSentence := some "d", suggestedSentence := some "e",
                 describedAs := some "f" }]]
        (fun _ => "uuid") (some "u1") "d1").1 =
      ((requestSuggestionsExec
        (some { id := "d1", title := "T", content := "text", kind := "text",
                createdAt := 0 })
        [some [{ originalSentence := some "a", suggestedSentence := some "b",
                 describedAs := some "c" }],
         some [{ originalSentence := some "a", suggestedSentence := some "b",
                 describedAs := some "c" },
               { originalSentence := some "d", suggestedSentence := some "e",
                 describedAs := some "f" }]]
        (fun _ => "uuid") (some "u1") "d1").2.1).map
        DataEvent.dataSuggestion :=
  (suggestions_emitted_and_persisted
    { id := "d1", title := "T", content := "text", kind := "text",
      createdAt := 0 }
    [some [{ originalSentence := some "a", suggestedSentence := some "b",
             describedAs := some "c" }],
     some [{ originalSentence := some "a", suggestedSentence := some "b",
             describedAs := some "c" },
           { originalSentence := some "d", suggestedSentence := some "e",
             describedAs := some "f" }]]
    (fun _ => "uuid") "u1" "d1" rfl rfl).2.1

end TasmilChat
